import Mathlib

/-!
Shallow embedding of `onpolicy_sync/engine.py` from the `allenact` repository
(`UndistributedOnPolicyRLEngine` and its checkpoint / pipeline machinery).

Modelling conventions:
* Machine integers are `Nat`/`Int` (Python integers are unbounded anyway).
* Python's global `random` module is modelled as an abstract pseudo-random
  state `S` together with the two operations the source uses (`random.seed`
  and `random.randint`), packaged in a `RandomLib` structure whose
  `randint_mem` field records the documented contract of
  `random.randint(a, b)` (an integer N with a <= N <= b).
* Tensors / torch state dicts (model, optimizer, scheduler) are abstract
  type parameters: the engine code only moves them around wholesale.
* File-system side effects (`torch.save`, `set_seed`, `vector_tasks.set_seeds`)
  are recorded as an explicit effect trace in the order the source performs
  them.
-/

set_option autoImplicit false

namespace Engine

universe u v

/-- Execution mode of the engine: the `mode` constructor argument, asserted in
`__init__` to be one of "train", "valid", "test". -/
inductive Mode where
  | train
  | valid
  | test
  deriving DecidableEq, Repr

/-- Python's `random` module, abstractly: a state type `S`, `random.seed`,
and `random.randint`, together with `randint`'s documented output range. -/
structure RandomLib (S : Type u) where
  seedFn : Int → S
  randint : Int → Int → S → Int × S
  randint_mem : ∀ a b s, a ≤ b → a ≤ (randint a b s).1 ∧ (randint a b s).1 ≤ b

/-- The list comprehension `[random.randint(0, 2 ** 31 - 1) for _ in range(n)]`
threaded through the random state. -/
def drawSeeds {S : Type u} (R : RandomLib S) : Nat → S → List Int × S
  | 0, s => ([], s)
  | n + 1, s =>
    let p := R.randint 0 (2 ^ 31 - 1) s
    let q := drawSeeds R n p.2
    (p.1 :: q.1, q.2)

/-- Embedding of the static method `worker_seeds(nprocesses, initial_seed)`
(engine.py lines 322-331).  The Python global random state is passed in and
returned explicitly: when `initial_seed` is given the source saves
`random.getstate()`, reseeds, draws, and restores the saved state. -/
def worker_seeds {S : Type u} (R : RandomLib S) (nprocesses : Nat)
    (initial_seed : Option Int) (g : S) : List Int × S :=
  let s0 : S :=
    match initial_seed with
    | some i => R.seedFn i
    | none => g
  let q := drawSeeds R nprocesses s0
  match initial_seed with
  | some _ => (q.1, g)
  | none => (q.1, q.2)

/-- Engine state: the mutable fields of `UndistributedOnPolicyRLEngine`
relevant to checkpointing and the pipeline loop (initialized in `__init__`).
`M`, `O`, `Sch` abstract the model / optimizer / scheduler state dicts. -/
structure State (M : Type u) (O : Type v) (Sch : Type u) where
  mode : Mode
  seed : Option Int
  num_processes : Nat
  output_dir : String
  experiment_name : String
  extra_tag : String
  total_updates : Nat
  pipeline_stage : Nat
  rollout_count : Nat
  backprop_count : Nat
  step_count : Nat
  episode_count : Nat
  off_policy_epochs : Option Nat
  total_steps : Nat
  last_save : Nat
  last_metrics_accumulate_steps : Option Nat
  local_start_time_str : Option String
  model_state : M
  optimizer_state : O
  lr_scheduler : Option Sch
  vector_tasks_closed : Bool
  deriving DecidableEq, Repr

/-- The checkpoint dictionary `save_dict` built by `checkpoint_save`
(engine.py lines 396-415).  `scheduler_state` is `none` exactly when the
key is absent (no `lr_scheduler`). -/
structure Checkpoint (M : Type u) (O : Type v) (Sch : Type u) where
  total_updates : Nat
  total_steps : Nat
  pipeline_stage : Nat
  rollout_count : Nat
  backprop_count : Nat
  step_count : Nat
  episode_count : Nat
  off_policy_epochs : Option Nat
  local_start_time_str : Option String
  optimizer_state_dict : O
  model_state_dict : M
  trainer_seed : Option Int
  extra_tag : String
  scheduler_state : Option Sch
  deriving DecidableEq, Repr

/-- Python `"{}".format(x)` on an `Optional[str]` field (`None` prints as "None"). -/
def optStr : Option String → String
  | some s => s
  | none => "None"

/-- Python `"{}".format(x)` on an `Optional[int]` field. -/
def optIntStr : Option Int → String
  | some i => toString i
  | none => "None"

/-- Python `"{:0Nd}".format(n)` for a nonnegative integer: left-pad the
decimal representation with zeros to a minimum width. -/
def pyZeroPad (width : Nat) (n : Nat) : String :=
  let s := toString n
  if s.length < width then String.mk (List.replicate (width - s.length) '0') ++ s
  else s

/-- Whether the first list is a prefix of the second (Boolean, structural). -/
def hasPrefixChars : List Char → List Char → Bool
  | [], _ => true
  | _ :: _, [] => false
  | a :: as, b :: bs => a == b && hasPrefixChars as bs

/-- Worker for `pySplit`: scan the character list left to right, cutting at
each non-overlapping occurrence of `sep` (Python `str.split(sep)` for a
nonempty separator).  The fuel argument only forces structural termination;
it is always supplied large enough never to run out. -/
def pySplitAux (sep : List Char) : Nat → List Char → List Char → List (List Char)
  | _, [], acc => [acc.reverse]
  | 0, l, acc => [acc.reverse ++ l]
  | fuel + 1, c :: rest, acc =>
    if hasPrefixChars sep (c :: rest) then
      acc.reverse :: pySplitAux sep fuel (List.drop (sep.length - 1) rest) []
    else
      pySplitAux sep fuel rest (c :: acc)

/-- Python `s.split(sep)` for a nonempty separator `sep`. -/
def pySplit (s sep : String) : List String :=
  (pySplitAux sep.data (s.data.length + 1) s.data []).map String.mk

/-- Python's `sub in s` substring test (for nonempty `sub`). -/
def pyContains (s sub : String) : Bool :=
  (pySplit s sub).length != 1

/-- Python `s.replace(old, new)` for a nonempty `old` (replace every
non-overlapping occurrence, equal to `new.join(s.split(old))`). -/
def pyReplace (s old new : String) : String :=
  String.intercalate new (pySplit s old)

/-- Worker for `pyIntParse`: accumulate decimal digits, failing on any
non-digit character. -/
def digitsToNatAux : List Char → Nat → Option Nat
  | [], acc => some acc
  | c :: rest, acc =>
    if c.isDigit then digitsToNatAux rest (acc * 10 + (c.toNat - ('0').toNat))
    else none

/-- Python `int(s)` on a (nonempty) decimal digit string; the `ValueError`
raised on an empty or non-digit string is modelled as `none`.  (Signs and
surrounding whitespace, which never occur in checkpoint names, are not
modelled.) -/
def pyIntParse (s : String) : Option Int :=
  match s.data with
  | [] => none
  | _ => (digitsToNatAux s.data 0).map Int.ofNat

/-- The `models_folder` property (engine.py lines 364-371):
`os.path.join(output_dir, "checkpoints", experiment_name, local_start_time_str)`. -/
def models_folder {M : Type u} {O : Type v} {Sch : Type u} (e : State M O Sch) : String :=
  e.output_dir ++ "/checkpoints/" ++ e.experiment_name ++ "/" ++ optStr e.local_start_time_str

/-- The checkpoint base file name built in `checkpoint_save` (engine.py
lines 383-394): the format string
`exp_[]__time_[]__stage_[:02d]__steps_[:012d]__seed_[].pt` applied to
`experiment_name`, `local_start_time_str`, `pipeline_stage`,
`total_steps + step_count` and `seed`. -/
def checkpoint_file_name {M : Type u} {O : Type v} {Sch : Type u} (e : State M O Sch) : String :=
  "exp_" ++ e.experiment_name ++ "__time_" ++ optStr e.local_start_time_str ++
    "__stage_" ++ pyZeroPad 2 e.pipeline_stage ++
    "__steps_" ++ pyZeroPad 12 (e.total_steps + e.step_count) ++
    "__seed_" ++ optIntStr e.seed ++ ".pt"

/-- Side effects performed by `checkpoint_save`, in program order:
the `set_seed(self.seed)` call, the `vector_tasks.set_seeds(seeds)` call,
and the final `torch.save(save_dict, model_path)`. -/
inductive SaveEffect (M : Type u) (O : Type v) (Sch : Type u) where
  | setSeedCall (s : Int)
  | setSeedsCall (seeds : List Int)
  | torchSave (path : String) (dict : Checkpoint M O Sch)
  deriving DecidableEq, Repr

/-- Result of `checkpoint_save`: the engine state after the call, the
serialized dictionary, the returned `model_path`, the final global random
state, and the trace of side effects in order. -/
structure SaveResult (M : Type u) (O : Type v) (Sch : Type u) (S : Type u) where
  engine : State M O Sch
  dict : Checkpoint M O Sch
  path : String
  rng : S
  effects : List (SaveEffect M O Sch)
  deriving Repr

/-- The `save_dict` dictionary built by `checkpoint_save` (engine.py lines
396-415) from the engine fields current at that point; the
`scheduler_state` key is added only when `lr_scheduler` is present. -/
def save_dict {M : Type u} {O : Type v} {Sch : Type u}
    (e : State M O Sch) : Checkpoint M O Sch :=
  { total_updates := e.total_updates
    total_steps := e.total_steps
    pipeline_stage := e.pipeline_stage
    rollout_count := e.rollout_count
    backprop_count := e.backprop_count
    step_count := e.step_count
    episode_count := e.episode_count
    off_policy_epochs := e.off_policy_epochs
    local_start_time_str := e.local_start_time_str
    optimizer_state_dict := e.optimizer_state
    model_state_dict := e.model_state
    trainer_seed := e.seed
    extra_tag := e.extra_tag
    scheduler_state := e.lr_scheduler }

/-- Embedding of `checkpoint_save` (engine.py lines 373-418).  When
`self.seed is not None and not self.vector_tasks.is_closed` the trainer is
reseeded from a fresh draw (`worker_seeds(1, None)[0]`), `set_seed` is
called, and fresh per-worker seeds (`worker_seeds(num_processes, None)`) are
sent to the worker pool; then `save_dict` is built from the current fields
and written to `model_path` under `models_folder`. -/
def checkpoint_save {M : Type u} {O : Type v} {Sch : Type u} {S : Type u}
    (R : RandomLib S) (e : State M O Sch) (g : S) : SaveResult M O Sch S :=
  let reseeded :
      State M O Sch × S × List (SaveEffect M O Sch) :=
    if e.seed.isSome && !e.vector_tasks_closed then
      let q1 := worker_seeds R 1 none g
      let newSeed := q1.1.headI
      let q2 := worker_seeds R e.num_processes none q1.2
      ({ e with seed := some newSeed }, q2.2,
        [SaveEffect.setSeedCall newSeed, SaveEffect.setSeedsCall q2.1])
    else (e, g, [])
  let e1 := reseeded.1
  let model_path := models_folder e1 ++ "/" ++ checkpoint_file_name e1
  { engine := e1
    dict := save_dict e1
    path := model_path
    rng := reseeded.2.1
    effects := reseeded.2.2 ++ [SaveEffect.torchSave model_path (save_dict e1)] }

/-- The `extra_tag` restore logic at the end of `checkpoint_load` for training
mode: keep the checkpoint's tag only when it is nonempty and the current tag
is empty. -/
def loadExtraTag (current ckptTag : String) : String :=
  if ckptTag ≠ "" ∧ current = "" then ckptTag else current

/-- Embedding of `checkpoint_load` (engine.py lines 420-466) applied to an
already-deserialized checkpoint dictionary.  Model parameters and the step
counters are always restored; the optimizer state, per-run counters, run
identity, and trainer seed are restored only in training mode.  The result is
`none` when the source would raise a `KeyError`: in training mode with an
`lr_scheduler` present but no `scheduler_state` key in the checkpoint.
(The source additionally calls `set_seed` and `vector_tasks.set_seeds` in
training mode when the restored seed is present; those external side effects
do not change any of the fields modelled here.) -/
def checkpoint_load {M : Type u} {O : Type v} {Sch : Type u}
    (e : State M O Sch) (ckpt : Checkpoint M O Sch) : Option (State M O Sch) :=
  let e0 := { e with
    model_state := ckpt.model_state_dict
    step_count := ckpt.step_count
    total_steps := ckpt.total_steps
    episode_count := ckpt.episode_count
    off_policy_epochs := ckpt.off_policy_epochs }
  match e.mode with
  | Mode.train =>
    let e1 := { e0 with
      optimizer_state := ckpt.optimizer_state_dict
      backprop_count := ckpt.backprop_count
      rollout_count := ckpt.rollout_count
      pipeline_stage := ckpt.pipeline_stage
      total_updates := ckpt.total_updates
      local_start_time_str := ckpt.local_start_time_str
      seed := ckpt.trainer_seed
      extra_tag := loadExtraTag e0.extra_tag ckpt.extra_tag }
    match e.lr_scheduler with
    | none => some e1
    | some _ =>
      match ckpt.scheduler_state with
      | none => none
      | some sch => some { e1 with lr_scheduler := some sch }
  | _ => some e0

/-- The `num_rollouts` / effective `max_stage_steps` computation from
`setup_stage` (engine.py lines 1090-1095):
`num_rollouts = (int(max_stage_steps) // steps_in_rollout) // num_processes`
and `max_stage_steps = num_rollouts * num_processes * steps_in_rollout`.
The parameter is declared `int` in the source, so the defensive `int()` cast
(Python floor for nonnegative values) is the identity here. -/
def setup_stage_rollouts (num_processes steps_in_rollout max_stage_steps : Nat) : Nat × Nat :=
  let num_rollouts := max_stage_steps / steps_in_rollout / num_processes
  (num_rollouts, num_rollouts * num_processes * steps_in_rollout)

/-- Abstraction of one execution of `train` inside `run_pipeline`: the new
values of exactly those engine fields that `train` (and the methods it calls:
`collect_rollout_step`, `update`, `offpolicy_update`, `checkpoint_save`,
`initialize_rollouts`) may write.  Notably `train` never writes
`total_steps` or `pipeline_stage`. -/
structure TrainDelta (M : Type u) (O : Type v) (Sch : Type u) where
  step_count : Nat
  rollout_count : Nat
  backprop_count : Nat
  episode_count : Nat
  off_policy_epochs : Option Nat
  seed : Option Int
  last_save : Nat
  last_metrics_accumulate_steps : Option Nat
  model_state : M
  optimizer_state : O
  lr_scheduler : Option Sch
  deriving Repr

/-- Apply a `TrainDelta` to the engine state: overwrite the train-mutable
fields, leave every other field untouched. -/
def apply_train {M : Type u} {O : Type v} {Sch : Type u}
    (t : TrainDelta M O Sch) (e : State M O Sch) : State M O Sch :=
  { e with
    step_count := t.step_count
    rollout_count := t.rollout_count
    backprop_count := t.backprop_count
    episode_count := t.episode_count
    off_policy_epochs := t.off_policy_epochs
    seed := t.seed
    last_save := t.last_save
    last_metrics_accumulate_steps := t.last_metrics_accumulate_steps
    model_state := t.model_state
    optimizer_state := t.optimizer_state
    lr_scheduler := t.lr_scheduler }

/-- The stage-boundary block of `run_pipeline` (engine.py lines 1402-1408),
executed right after a stage's `train` call returns:
`total_updates += num_rollouts; pipeline_stage += 1; rollout_count = 0;
backprop_count = 0; total_steps += step_count; step_count = 0`. -/
def stage_boundary {M : Type u} {O : Type v} {Sch : Type u}
    (num_rollouts : Nat) (e : State M O Sch) : State M O Sch :=
  { e with
    total_updates := e.total_updates + num_rollouts
    pipeline_stage := e.pipeline_stage + 1
    rollout_count := 0
    backprop_count := 0
    total_steps := e.total_steps + e.step_count
    step_count := 0 }

/-- One iteration of the stage loop in `run_pipeline` (engine.py lines
1356-1408): reset `last_metrics_accumulate_steps`, set
`last_save = step_count`, run the stage's `train` (abstracted by a
`TrainDelta`), then the boundary block with that stage's `num_rollouts`. -/
def run_stage {M : Type u} {O : Type v} {Sch : Type u}
    (metric_accumulate_interval : Option Nat)
    (s : TrainDelta M O Sch × Nat) (e : State M O Sch) : State M O Sch :=
  let e0 := { e with
    last_metrics_accumulate_steps :=
      match metric_accumulate_interval with
      | none => none
      | some _ => some 0
    last_save := e.step_count }
  stage_boundary s.2 (apply_train s.1 e0)

/-- The stage loop of `run_pipeline`, folded over the remaining stages. -/
def run_pipeline_stages {M : Type u} {O : Type v} {Sch : Type u}
    (metric_accumulate_interval : Option Nat) :
    List (TrainDelta M O Sch × Nat) → State M O Sch → State M O Sch
  | [], e => e
  | s :: rest, e =>
    run_pipeline_stages metric_accumulate_interval rest
      (run_stage metric_accumulate_interval s e)

/-- Embedding of `step_from_checkpoint` (engine.py lines 1586-1591): split on
`"__"`, return `int(part.split("_")[-1])` for the first part containing
`"steps_"`, and `-1` when no part matches; `none` models the `int()`
exception on a malformed part. -/
def step_from_checkpoint (name : String) : Option Int :=
  let parts := pySplit name "__"
  match parts.find? (fun part => pyContains part "steps_") with
  | some part => pyIntParse ((pySplit part "_").getLastD part)
  | none => some (-1)

/-- The run-id extraction at the top of `get_checkpoint_path` (engine.py
lines 1198-1200): `[s for s in name.split("__") if "time_" in s][0]` with
`"time_"` removed; `none` models the `IndexError` when no part matches. -/
def checkpoint_start_time (checkpoint_file_name : String) : Option String :=
  (((pySplit checkpoint_file_name "__").filter
      (fun s => pyContains s "time_")).head?).map
    (fun s => pyReplace s "time_" "")

/-- Embedding of `get_checkpoint_path` (engine.py lines 1197-1226).  The file
system is abstracted by the predicate `exists_at` (for `os.path.exists`) and
by `glob_matches`, the result of the recursive `glob` search for the file
name under the working directory.  `Except.error` models the raised
exceptions (including the `IndexError` for a name with no time segment). -/
def get_checkpoint_path (output_dir checkpoint_file_name : String)
    (exists_at : String → Bool) (glob_matches : List String) : Except String String :=
  match checkpoint_start_time checkpoint_file_name with
  | none => Except.error "IndexError"
  | some t =>
    let expected_path :=
      output_dir ++ "/checkpoints/" ++ t ++ "/" ++ checkpoint_file_name
    if exists_at expected_path then Except.ok expected_path
    else
      match glob_matches with
      | [] => Except.error "Could not find checkpoint anywhere in the working directory."
      | [p] => Except.ok p
      | _ => Except.error "Found too many checkpoint paths."

/-- Helper for `remove_paused_and_batch`: the enumeration loop
`for it, obs in enumerate(observations)` carried out from index `it`,
returning the `paused` indices, the `keep` indices, and the `running`
observations, each in encounter order. -/
def rpbLoop {α : Type u} : Nat → List (Option α) → List Nat × List Nat × List α
  | _, [] => ([], [], [])
  | it, obs :: rest =>
    let q := rpbLoop (it + 1) rest
    match obs with
    | none => (it :: q.1, q.2.1, q.2.2)
    | some o => (q.1, it :: q.2.1, o :: q.2.2)

/-- Embedding of `remove_paused_and_batch` (engine.py lines 941-955): returns
`(len(paused), keep, batch)` where `batch` abstracts
`batch_observations(running)` by the list of running observations.  (The
`vector_tasks.pause_at(p)` calls issued for the paused indices are external
side effects on the worker pool and are not part of the returned value.) -/
def remove_paused_and_batch {α : Type u}
    (observations : List (Option α)) : Nat × List Nat × List α :=
  let q := rpbLoop 0 observations
  (q.1.length, q.2.1, q.2.2)

/-- The `isinstance(total_loss, torch.Tensor)` dichotomy for the loss value
computed in `update`: either a scalar tensor (with its `item()` value) or a
non-tensor result (e.g. a plain Python float). -/
inductive LossVal where
  | tensor (v : Int)
  | notTensor
  deriving DecidableEq, Repr

/-- Whether a loss value is a `torch.Tensor`. -/
def LossVal.isTensor : LossVal → Bool
  | tensor _ => true
  | notTensor => false

/-- Observable trainer state mutated by the mini-batch body of `update`:
`backprop_count`, the sequence of `update_package` messages put on the
metrics queue, the number of `optimizer.step()` calls, and the number of
`warnings.warn` calls. -/
structure UpdateCounters where
  backprop_count : Nat
  update_packages : List Int
  optimizer_steps : Nat
  warning_count : Nat
  deriving DecidableEq, Repr

/-- The mini-batch body of `update` (engine.py lines 709-725), given the
computed `total_loss`.  A tensor loss enqueues one `update_package` (carrying
`total_loss.item()`), performs one optimizer step, and increments
`backprop_count`; a non-tensor loss only emits a warning. -/
def update_minibatch (st : UpdateCounters) (total_loss : LossVal) : UpdateCounters :=
  match total_loss with
  | LossVal.tensor v =>
    { st with
      update_packages := st.update_packages ++ [v]
      optimizer_steps := st.optimizer_steps + 1
      backprop_count := st.backprop_count + 1 }
  | LossVal.notTensor =>
    { st with warning_count := st.warning_count + 1 }

/-- The epoch/mini-batch double loop of `update`, flattened to the sequence
of per-mini-batch total losses it iterates over (the loop never aborts on a
non-tensor loss, it proceeds to the next mini-batch). -/
def update_loop (st : UpdateCounters) : List LossVal → UpdateCounters
  | [] => st
  | l :: ls => update_loop (update_minibatch st l) ls

/-- A concrete `RandomLib` instance (a linear congruential generator over
`Int` states) used to instantiate witnesses. -/
def lcgLib : RandomLib Int where
  seedFn i := i
  randint a b s := (a + s % (b - a + 1), s * 1103515245 + 12345)
  randint_mem a b s h := by
    have hpos : (0 : Int) < b - a + 1 := by omega
    have h0 : 0 ≤ s % (b - a + 1) := Int.emod_nonneg s (by omega)
    have h1 : s % (b - a + 1) < b - a + 1 := Int.emod_lt_of_pos s hpos
    constructor <;> simp <;> omega

/-! ### Helper lemmas -/

/-- Filtering a list of options by `isNone` and by `isSome` partitions it. -/
theorem count_none_add_count_some {α : Type u} (l : List (Option α)) :
    (l.filter (fun o => o.isNone)).length + (l.filter (fun o => o.isSome)).length
      = l.length := by
  induction l with
  | nil => simp
  | cons h t ih => cases h <;> simp [List.filter, ih] <;> omega

/-- The filtered enumeration of a list of options has as many `isSome`
entries as the list itself, independently of the starting index. -/
theorem enumFrom_filter_isSome_length {α : Type u} (l : List (Option α)) :
    ∀ it : Nat,
      ((List.enumFrom it l).filter (fun p => p.2.isSome)).length =
        (l.filter (fun o => o.isSome)).length := by
  induction l with
  | nil => intro it; simp
  | cons h t ih =>
    intro it
    cases h <;> simp [List.enumFrom, List.filter, ih (it + 1)]

/-- Characterization of the `remove_paused_and_batch` enumeration loop. -/
theorem rpbLoop_spec {α : Type u} (l : List (Option α)) : ∀ it : Nat,
    (rpbLoop it l).1.length = (l.filter (fun o => o.isNone)).length ∧
    (rpbLoop it l).2.1 =
      ((List.enumFrom it l).filter (fun p => p.2.isSome)).map Prod.fst ∧
    (rpbLoop it l).2.2 = l.filterMap id := by
  induction l with
  | nil => intro it; simp [rpbLoop]
  | cons h t ih =>
    intro it
    obtain ⟨ih1, ih2, ih3⟩ := ih (it + 1)
    cases h <;>
      simp [rpbLoop, List.enumFrom, List.filter, List.filterMap, ih1, ih2, ih3]

/-- Aggregate `backprop_count` over the flattened mini-batch loop. -/
theorem update_loop_backprop (ls : List LossVal) : ∀ st : UpdateCounters,
    (update_loop st ls).backprop_count =
      st.backprop_count + (ls.filter LossVal.isTensor).length := by
  induction ls with
  | nil => intro st; simp [update_loop]
  | cons l rest ih =>
    intro st
    cases l <;>
      simp [update_loop, update_minibatch, LossVal.isTensor, List.filter, ih] <;>
      omega

/-- Aggregate enqueued `update_package` values over the mini-batch loop. -/
theorem update_loop_packages (ls : List LossVal) : ∀ st : UpdateCounters,
    (update_loop st ls).update_packages =
      st.update_packages ++
        (ls.filterMap fun l => match l with
          | LossVal.tensor v => some v
          | LossVal.notTensor => none) := by
  induction ls with
  | nil => intro st; simp [update_loop]
  | cons l rest ih =>
    intro st
    cases l <;>
      simp [update_loop, update_minibatch, List.filterMap, ih]

/-- Aggregate warning count over the mini-batch loop. -/
theorem update_loop_warnings (ls : List LossVal) : ∀ st : UpdateCounters,
    (update_loop st ls).warning_count =
      st.warning_count + (ls.filter (fun l => !l.isTensor)).length := by
  induction ls with
  | nil => intro st; simp [update_loop]
  | cons l rest ih =>
    intro st
    cases l <;>
      simp [update_loop, update_minibatch, LossVal.isTensor, List.filter, ih] <;>
      omega

/-- The reseeding in `checkpoint_save` never changes the engine mode. -/
theorem checkpoint_save_mode {M : Type u} {O : Type v} {Sch : Type u} {S : Type u}
    (R : RandomLib S) (e : State M O Sch) (g : S) :
    (checkpoint_save R e g).engine.mode = e.mode := by
  unfold checkpoint_save
  by_cases h : (e.seed.isSome && !e.vector_tasks_closed) = true <;> simp [h]

/-- The dictionary serialized by `checkpoint_save` is built from the
post-reseed engine state. -/
theorem checkpoint_save_dict_eq {M : Type u} {O : Type v} {Sch : Type u} {S : Type u}
    (R : RandomLib S) (e : State M O Sch) (g : S) :
    (checkpoint_save R e g).dict = save_dict (checkpoint_save R e g).engine := by
  unfold checkpoint_save
  by_cases h : (e.seed.isSome && !e.vector_tasks_closed) = true <;> simp [h]

/-- Loading the dictionary `save_dict e` back into the same training-mode
engine is the identity. -/
theorem checkpoint_load_save_dict {M : Type u} {O : Type v} {Sch : Type u}
    (e : State M O Sch) (h : e.mode = Mode.train) :
    checkpoint_load e (save_dict e) = some e := by
  have het : loadExtraTag e.extra_tag e.extra_tag = e.extra_tag := by
    rw [loadExtraTag, if_neg]
    rintro ⟨h1, h2⟩
    exact h1 h2
  cases e with
  | mk mo sd np od en et tu ps rc bc sc ec ope ts ls lms lsts ms os lr vc =>
    simp only [State.mk.injEq] at *
    subst h
    cases lr <;> simp [checkpoint_load, save_dict, het]

/-- C3: `setup_stage` computes
`num_rollouts = (floor(max_stage_steps) // steps_in_rollout) // num_processes`
(truncating integer division) and records the effective `max_stage_steps` as
`num_rollouts * num_processes * steps_in_rollout`, which never exceeds the
requested budget; in particular `max_stage_steps = 1000`,
`steps_in_rollout = 50`, `num_processes = 4` gives `num_rollouts = 5` and
recorded `max_stage_steps = 1000`. -/
theorem setup_stage_rollouts_spec (max_stage_steps steps_in_rollout num_processes : Nat)
    (h1 : 1 ≤ steps_in_rollout) (h2 : 1 ≤ num_processes) :
    (setup_stage_rollouts num_processes steps_in_rollout max_stage_steps).1 =
      max_stage_steps / steps_in_rollout / num_processes ∧
    (setup_stage_rollouts num_processes steps_in_rollout max_stage_steps).2 =
      (max_stage_steps / steps_in_rollout / num_processes) * num_processes *
        steps_in_rollout ∧
    (setup_stage_rollouts num_processes steps_in_rollout max_stage_steps).2 ≤
      max_stage_steps ∧
    setup_stage_rollouts 4 50 1000 = (5, 1000) := by
  refine ⟨rfl, rfl, ?_, by decide⟩
  calc max_stage_steps / steps_in_rollout / num_processes * num_processes *
        steps_in_rollout
      ≤ max_stage_steps / steps_in_rollout * steps_in_rollout :=
        Nat.mul_le_mul_right _ (Nat.div_mul_le_self _ _)
    _ ≤ max_stage_steps := Nat.div_mul_le_self _ _

/-- Witness for C3 at the documented scenario `(1000, 50, 4)`. -/
theorem setup_stage_rollouts_spec_witness :
    (setup_stage_rollouts 4 50 1000).1 = 1000 / 50 / 4 ∧
    (setup_stage_rollouts 4 50 1000).2 = 1000 / 50 / 4 * 4 * 50 ∧
    (setup_stage_rollouts 4 50 1000).2 ≤ 1000 ∧
    setup_stage_rollouts 4 50 1000 = (5, 1000) :=
  setup_stage_rollouts_spec 1000 50 4 (by decide) (by decide)

/-- C2: at every stage boundary of `run_pipeline` the per-stage counters
`rollout_count`, `backprop_count`, `step_count` are reset to `0`, the old
`step_count` (the value `train` left behind) folds into `total_steps`, and
`pipeline_stage` increments by one; over any run of the stage loop,
`total_steps` never decreases and `pipeline_stage` only ever grows (by
exactly one per stage), so neither is ever reset. -/
theorem run_pipeline_stage_boundary_spec {M : Type u} {O : Type v} {Sch : Type u}
    (mai : Option Nat) (t : TrainDelta M O Sch) (nr : Nat) (e : State M O Sch)
    (stages : List (TrainDelta M O Sch × Nat)) :
    (run_stage mai (t, nr) e).rollout_count = 0 ∧
    (run_stage mai (t, nr) e).backprop_count = 0 ∧
    (run_stage mai (t, nr) e).step_count = 0 ∧
    (run_stage mai (t, nr) e).total_steps = e.total_steps + t.step_count ∧
    (run_stage mai (t, nr) e).pipeline_stage = e.pipeline_stage + 1 ∧
    (run_stage mai (t, nr) e).total_updates = e.total_updates + nr ∧
    e.total_steps ≤ (run_pipeline_stages mai stages e).total_steps ∧
    (run_pipeline_stages mai stages e).pipeline_stage =
      e.pipeline_stage + stages.length := by
  refine ⟨rfl, rfl, rfl, rfl, rfl, rfl, ?_, ?_⟩
  · induction stages generalizing e with
    | nil => exact le_refl _
    | cons s rest ih =>
      calc e.total_steps
          ≤ (run_stage mai s e).total_steps := Nat.le_add_right _ _
        _ ≤ (run_pipeline_stages mai rest (run_stage mai s e)).total_steps := ih _
  · induction stages generalizing e with
    | nil => rfl
    | cons s rest ih =>
      show (run_pipeline_stages mai rest (run_stage mai s e)).pipeline_stage = _
      rw [ih (run_stage mai s e)]
      show e.pipeline_stage + 1 + rest.length = _
      simp [List.length_cons]
      omega

/-- C6: in the mini-batch loop of `update`, a non-tensor total loss only
emits a warning — `backprop_count` is untouched, no `update_package` is
enqueued, no optimizer step runs — and the loop continues with the next
mini-batch; a tensor total loss increments `backprop_count` by exactly one
and enqueues exactly one `update_package`.  Over the whole loop,
`backprop_count` and the number of enqueued packages both grow by exactly
the number of tensor-valued losses and the warning count by the number of
non-tensor ones. -/
theorem update_loss_anomaly_spec (st : UpdateCounters) (v : Int) (ls : List LossVal) :
    (update_minibatch st LossVal.notTensor).backprop_count = st.backprop_count ∧
    (update_minibatch st LossVal.notTensor).update_packages = st.update_packages ∧
    (update_minibatch st LossVal.notTensor).optimizer_steps = st.optimizer_steps ∧
    (update_minibatch st LossVal.notTensor).warning_count = st.warning_count + 1 ∧
    (update_minibatch st (LossVal.tensor v)).backprop_count = st.backprop_count + 1 ∧
    (update_minibatch st (LossVal.tensor v)).update_packages =
      st.update_packages ++ [v] ∧
    (update_minibatch st (LossVal.tensor v)).warning_count = st.warning_count ∧
    update_loop st (LossVal.notTensor :: ls) =
      update_loop (update_minibatch st LossVal.notTensor) ls ∧
    (update_loop st ls).backprop_count =
      st.backprop_count + (ls.filter LossVal.isTensor).length ∧
    (update_loop st ls).update_packages =
      st.update_packages ++
        (ls.filterMap fun l => match l with
          | LossVal.tensor w => some w
          | LossVal.notTensor => none) ∧
    (update_loop st ls).warning_count =
      st.warning_count + (ls.filter (fun l => !l.isTensor)).length :=
  ⟨rfl, rfl, rfl, rfl, rfl, rfl, rfl, rfl, update_loop_backprop ls st,
    update_loop_packages ls st, update_loop_warnings ls st⟩

/-- C9: `remove_paused_and_batch` returns `npaused` equal to the number of
`None` observations and `keep` equal to the indices of the non-`None`
observations in their original relative order (processes are removed, never
reordered), with `npaused + keep.length` equal to the total number of
processes; in particular any 4 observations with exactly one `None` give
`npaused = 1` and a `keep` of length 3. -/
theorem remove_paused_and_batch_spec {α : Type u} (observations : List (Option α)) :
    (remove_paused_and_batch observations).1 =
      (observations.filter (fun o => o.isNone)).length ∧
    (remove_paused_and_batch observations).2.1 =
      ((observations.enum.filter (fun p => p.2.isSome)).map Prod.fst) ∧
    (remove_paused_and_batch observations).2.2 = observations.filterMap id ∧
    (remove_paused_and_batch observations).1 +
        (remove_paused_and_batch observations).2.1.length =
      observations.length ∧
    (∀ obs : List (Option α), obs.length = 4 →
      (obs.filter (fun o => o.isNone)).length = 1 →
      (remove_paused_and_batch obs).1 = 1 ∧
        (remove_paused_and_batch obs).2.1.length = 3) := by
  have key : ∀ l : List (Option α),
      (remove_paused_and_batch l).1 = (l.filter (fun o => o.isNone)).length ∧
      (remove_paused_and_batch l).2.1 =
        ((l.enum.filter (fun p => p.2.isSome)).map Prod.fst) ∧
      (remove_paused_and_batch l).2.2 = l.filterMap id ∧
      (remove_paused_and_batch l).1 + (remove_paused_and_batch l).2.1.length =
        l.length := by
    intro l
    obtain ⟨h1, h2, h3⟩ := rpbLoop_spec l 0
    refine ⟨h1, h2, h3, ?_⟩
    rw [show (remove_paused_and_batch l).1 = (rpbLoop 0 l).1.length from rfl, h1]
    rw [show (remove_paused_and_batch l).2.1 = (rpbLoop 0 l).2.1 from rfl, h2]
    rw [List.length_map, enumFrom_filter_isSome_length l 0]
    exact count_none_add_count_some l
  obtain ⟨h1, h2, h3, h4⟩ := key observations
  refine ⟨h1, h2, h3, h4, ?_⟩
  intro obs hlen hnone
  obtain ⟨g1, _, _, g4⟩ := key obs
  constructor
  · rw [g1, hnone]
  · rw [g1, hnone] at g4
    omega

/-- Witness for C9: four observations, the second paused. -/
theorem remove_paused_and_batch_spec_witness :
    (remove_paused_and_batch [some 0, none, some 1, some 2]).1 = 1 ∧
      (remove_paused_and_batch [some 0, none, some 1, some 2]).2.1.length = 3 :=
  (remove_paused_and_batch_spec
        ([some 0, none, some 1, some 2] : List (Option Nat))).2.2.2.2
    [some 0, none, some 1, some 2] (by decide) (by decide)

/-- C7: `get_checkpoint_path` fails exactly when the checkpoint file is not
at its expected path and the recursive search returns zero or more than one
match; it returns the expected path when the file is there, and the unique
search result when exactly one is found elsewhere. -/
theorem get_checkpoint_path_spec (output_dir name t : String)
    (exists_at : String → Bool) (glob_matches : List String)
    (ht : checkpoint_start_time name = some t) :
    ((∃ msg, get_checkpoint_path output_dir name exists_at glob_matches =
        Except.error msg) ↔
      (exists_at (output_dir ++ "/checkpoints/" ++ t ++ "/" ++ name) = false ∧
        (glob_matches = [] ∨ 2 ≤ glob_matches.length))) ∧
    (exists_at (output_dir ++ "/checkpoints/" ++ t ++ "/" ++ name) = true →
      get_checkpoint_path output_dir name exists_at glob_matches =
        Except.ok (output_dir ++ "/checkpoints/" ++ t ++ "/" ++ name)) ∧
    (∀ p, exists_at (output_dir ++ "/checkpoints/" ++ t ++ "/" ++ name) = false →
      glob_matches = [p] →
      get_checkpoint_path output_dir name exists_at glob_matches =
        Except.ok p) := by
  cases hfs : exists_at (output_dir ++ "/checkpoints/" ++ t ++ "/" ++ name) with
  | true =>
    refine ⟨?_, fun _ => ?_, fun p hf _ => by simp [hfs] at hf⟩
    · simp [get_checkpoint_path, ht, hfs]
    · simp [get_checkpoint_path, ht, hfs]
  | false =>
    match glob_matches with
    | [] =>
      refine ⟨?_, fun hf => by simp [hfs] at hf, ?_⟩
      · simp [get_checkpoint_path, ht, hfs]
      · intro p _ hp
        exact absurd hp (by simp)
    | [p] =>
      refine ⟨?_, fun hf => by simp [hfs] at hf, ?_⟩
      · simp [get_checkpoint_path, ht, hfs]
      · intro q _ hq
        have hpq : q = p := by simpa using hq.symm
        subst hpq
        simp [get_checkpoint_path, ht, hfs]
    | p :: q :: rest =>
      refine ⟨?_, fun hf => by simp [hfs] at hf, ?_⟩
      · simp [get_checkpoint_path, ht, hfs, List.length_cons]
      · intro r _ hr
        exact absurd hr (by simp)

/-- Witness for C7: the documented checkpoint name, absent from its expected
location, found at exactly one place by the recursive search. -/
theorem get_checkpoint_path_spec_witness :
    get_checkpoint_path "out"
        "exp_Foo__time_2024-01-01_00-00-00__stage_02__steps_000000001000__seed_42.pt"
        (fun _ => false) ["elsewhere/ckpt.pt"] =
      Except.ok "elsewhere/ckpt.pt" :=
  (get_checkpoint_path_spec "out"
        "exp_Foo__time_2024-01-01_00-00-00__stage_02__steps_000000001000__seed_42.pt"
        "2024-01-01_00-00-00" (fun _ => false) ["elsewhere/ckpt.pt"]
        (by decide)).2.2
    "elsewhere/ckpt.pt" rfl rfl

/-- A concrete training-mode engine state used for witnesses. -/
def sampleTrainEngine : State Nat Nat Nat :=
  { mode := Mode.train
    seed := some 42
    num_processes := 4
    output_dir := "out"
    experiment_name := "Foo"
    extra_tag := ""
    total_updates := 7
    pipeline_stage := 2
    rollout_count := 3
    backprop_count := 11
    step_count := 40
    episode_count := 5
    off_policy_epochs := some 1
    total_steps := 960
    last_save := 0
    last_metrics_accumulate_steps := some 0
    local_start_time_str := some "2024-01-01_00-00-00"
    model_state := 17
    optimizer_state := 23
    lr_scheduler := some 3
    vector_tasks_closed := false }

/-- A concrete validation-mode engine state used for witnesses. -/
def sampleValidEngine : State Nat Nat Nat :=
  { sampleTrainEngine with mode := Mode.valid }

/-- A concrete checkpoint dictionary used for witnesses. -/
def sampleCkpt : Checkpoint Nat Nat Nat :=
  { total_updates := 100
    total_steps := 2000
    pipeline_stage := 3
    rollout_count := 8
    backprop_count := 55
    step_count := 120
    episode_count := 44
    off_policy_epochs := some 2
    local_start_time_str := some "2023-12-31_23-59-59"
    optimizer_state_dict := 77
    model_state_dict := 88
    trainer_seed := some 7
    extra_tag := "tag"
    scheduler_state := some 9 }

/-- C1: in training mode, `checkpoint_save` followed by `checkpoint_load` of
the produced dictionary restores exactly the saved `EngineState`: loading
into the post-save engine is the identity, and the dictionary records
precisely the save-time values of `total_updates`, `total_steps`,
`pipeline_stage`, `rollout_count`, `backprop_count`, `step_count`,
`episode_count`, `off_policy_epochs`, `local_start_time_str` and the trainer
seed. -/
theorem checkpoint_roundtrip_train_spec {M : Type u} {O : Type v} {Sch : Type u}
    {S : Type u} (R : RandomLib S) (e : State M O Sch) (g : S)
    (h : e.mode = Mode.train) :
    checkpoint_load (checkpoint_save R e g).engine (checkpoint_save R e g).dict =
      some (checkpoint_save R e g).engine ∧
    (checkpoint_save R e g).dict.total_updates =
      (checkpoint_save R e g).engine.total_updates ∧
    (checkpoint_save R e g).dict.total_steps =
      (checkpoint_save R e g).engine.total_steps ∧
    (checkpoint_save R e g).dict.pipeline_stage =
      (checkpoint_save R e g).engine.pipeline_stage ∧
    (checkpoint_save R e g).dict.rollout_count =
      (checkpoint_save R e g).engine.rollout_count ∧
    (checkpoint_save R e g).dict.backprop_count =
      (checkpoint_save R e g).engine.backprop_count ∧
    (checkpoint_save R e g).dict.step_count =
      (checkpoint_save R e g).engine.step_count ∧
    (checkpoint_save R e g).dict.episode_count =
      (checkpoint_save R e g).engine.episode_count ∧
    (checkpoint_save R e g).dict.off_policy_epochs =
      (checkpoint_save R e g).engine.off_policy_epochs ∧
    (checkpoint_save R e g).dict.local_start_time_str =
      (checkpoint_save R e g).engine.local_start_time_str ∧
    (checkpoint_save R e g).dict.trainer_seed =
      (checkpoint_save R e g).engine.seed := by
  have hm : (checkpoint_save R e g).engine.mode = Mode.train := by
    rw [checkpoint_save_mode]; exact h
  rw [checkpoint_save_dict_eq]
  exact ⟨checkpoint_load_save_dict _ hm, rfl, rfl, rfl, rfl, rfl, rfl, rfl, rfl,
    rfl, rfl⟩

/-- Witness for C1: the round trip on a concrete training-mode engine. -/
theorem checkpoint_roundtrip_train_spec_witness :
    checkpoint_load (checkpoint_save lcgLib sampleTrainEngine (0 : Int)).engine
        (checkpoint_save lcgLib sampleTrainEngine (0 : Int)).dict =
      some (checkpoint_save lcgLib sampleTrainEngine (0 : Int)).engine :=
  (checkpoint_roundtrip_train_spec lcgLib sampleTrainEngine 0 rfl).1

/-- C4: in "valid" or "test" mode, `checkpoint_load` restores only the model
parameters and the step counters (`step_count`, `total_steps`,
`episode_count`, `off_policy_epochs`) and leaves the optimizer state,
`pipeline_stage`, `rollout_count`, `backprop_count`, `total_updates`,
`local_start_time_str` and the seed unchanged. -/
theorem checkpoint_load_eval_frame_spec {M : Type u} {O : Type v} {Sch : Type u}
    (e : State M O Sch) (ck : Checkpoint M O Sch)
    (h : e.mode = Mode.valid ∨ e.mode = Mode.test) :
    checkpoint_load e ck =
      some { e with
        model_state := ck.model_state_dict
        step_count := ck.step_count
        total_steps := ck.total_steps
        episode_count := ck.episode_count
        off_policy_epochs := ck.off_policy_epochs } ∧
    ∀ e', checkpoint_load e ck = some e' →
      e'.optimizer_state = e.optimizer_state ∧
      e'.pipeline_stage = e.pipeline_stage ∧
      e'.rollout_count = e.rollout_count ∧
      e'.backprop_count = e.backprop_count ∧
      e'.total_updates = e.total_updates ∧
      e'.local_start_time_str = e.local_start_time_str ∧
      e'.seed = e.seed ∧
      e'.lr_scheduler = e.lr_scheduler ∧
      e'.extra_tag = e.extra_tag ∧
      e'.model_state = ck.model_state_dict ∧
      e'.step_count = ck.step_count ∧
      e'.total_steps = ck.total_steps ∧
      e'.episode_count = ck.episode_count ∧
      e'.off_policy_epochs = ck.off_policy_epochs := by
  have heq : checkpoint_load e ck =
      some { e with
        model_state := ck.model_state_dict
        step_count := ck.step_count
        total_steps := ck.total_steps
        episode_count := ck.episode_count
        off_policy_epochs := ck.off_policy_epochs } := by
    rcases h with h | h <;> (unfold checkpoint_load; rw [h])
  refine ⟨heq, ?_⟩
  intro e' he'
  rw [heq] at he'
  cases he'
  exact ⟨rfl, rfl, rfl, rfl, rfl, rfl, rfl, rfl, rfl, rfl, rfl, rfl, rfl, rfl⟩

/-- Witness for C4: loading a concrete checkpoint into a concrete
validation-mode engine. -/
theorem checkpoint_load_eval_frame_spec_witness :
    checkpoint_load sampleValidEngine sampleCkpt =
      some { sampleValidEngine with
        model_state := sampleCkpt.model_state_dict
        step_count := sampleCkpt.step_count
        total_steps := sampleCkpt.total_steps
        episode_count := sampleCkpt.episode_count
        off_policy_epochs := sampleCkpt.off_policy_epochs } :=
  (checkpoint_load_eval_frame_spec sampleValidEngine sampleCkpt (Or.inl rfl)).1

/-- Python zero-padding yields exactly `w` characters whenever the number
has at most `w` decimal digits. -/
theorem pyZeroPad_length (w n : Nat) (h0 : 0 < w) (h : n < 10 ^ w) :
    (pyZeroPad w n).length = w := by
  have hle : (Nat.repr n).length ≤ w := Nat.repr_length n w h0 h
  unfold pyZeroPad
  by_cases hlt : (toString n).length < w
  · rw [if_pos hlt, String.length_append]
    rw [show (String.mk (List.replicate (w - (toString n).length) '0')).length =
        (List.replicate (w - (toString n).length) '0').length from rfl]
    rw [List.length_replicate]
    omega
  · rw [if_neg hlt]
    exact le_antisymm hle (not_lt.mp hlt)

/-- The model path returned by `checkpoint_save` is the post-reseed file
name under the (unchanged) models folder. -/
theorem checkpoint_save_path_eq {M : Type u} {O : Type v} {Sch : Type u} {S : Type u}
    (R : RandomLib S) (e : State M O Sch) (g : S) :
    (checkpoint_save R e g).path =
      models_folder (checkpoint_save R e g).engine ++ "/" ++
        checkpoint_file_name (checkpoint_save R e g).engine := by
  unfold checkpoint_save
  by_cases h : (e.seed.isSome && !e.vector_tasks_closed) = true <;> simp [h]

/-- The engine after `checkpoint_save` differs from the input at most in its
seed. -/
theorem checkpoint_save_engine_eq {M : Type u} {O : Type v} {Sch : Type u} {S : Type u}
    (R : RandomLib S) (e : State M O Sch) (g : S) :
    ∃ sd, (checkpoint_save R e g).engine = { e with seed := sd } := by
  unfold checkpoint_save
  by_cases h : (e.seed.isSome && !e.vector_tasks_closed) = true
  · exact ⟨some ((worker_seeds R 1 none g).1.headI), by simp [h]⟩
  · exact ⟨e.seed, by simp [h]⟩

/-- C5: every checkpoint file produced by `checkpoint_save` is stored under
`output_dir/checkpoints/<experiment>/<run-id>/` with name
`exp_<experiment>__time_<run-id>__stage_<2-digit>__steps_<12-digit>__seed_<seed>.pt`,
with the stage zero-padded to 2 digits and the steps field equal to
`total_steps + step_count` zero-padded to 12 digits; parsing the documented
example name recovers `steps = 1000` via `step_from_checkpoint` and run-id
`"2024-01-01_00-00-00"` from the time segment. -/
theorem checkpoint_name_format_spec {M : Type u} {O : Type v} {Sch : Type u}
    {S : Type u} (R : RandomLib S) (e : State M O Sch) (g : S)
    (hstage : e.pipeline_stage < 100)
    (hsteps : e.total_steps + e.step_count < 10 ^ 12) :
    (checkpoint_save R e g).path =
      e.output_dir ++ "/checkpoints/" ++ e.experiment_name ++ "/" ++
        optStr e.local_start_time_str ++ "/" ++
        ("exp_" ++ e.experiment_name ++ "__time_" ++
          optStr e.local_start_time_str ++
          "__stage_" ++ pyZeroPad 2 e.pipeline_stage ++
          "__steps_" ++ pyZeroPad 12 (e.total_steps + e.step_count) ++
          "__seed_" ++ optIntStr (checkpoint_save R e g).engine.seed ++ ".pt") ∧
    (pyZeroPad 2 e.pipeline_stage).length = 2 ∧
    (pyZeroPad 12 (e.total_steps + e.step_count)).length = 12 ∧
    step_from_checkpoint
        "exp_Foo__time_2024-01-01_00-00-00__stage_02__steps_000000001000__seed_42.pt" =
      some 1000 ∧
    checkpoint_start_time
        "exp_Foo__time_2024-01-01_00-00-00__stage_02__steps_000000001000__seed_42.pt" =
      some "2024-01-01_00-00-00" := by
  refine ⟨?_, pyZeroPad_length 2 e.pipeline_stage (by omega) hstage,
    pyZeroPad_length 12 (e.total_steps + e.step_count) (by omega) hsteps,
    by decide, by decide⟩
  obtain ⟨sd, hsd⟩ := checkpoint_save_engine_eq R e g
  rw [checkpoint_save_path_eq, hsd]
  rfl

/-- Witness for C5 at a concrete training engine within both digit bounds. -/
theorem checkpoint_name_format_spec_witness :
    (pyZeroPad 2 sampleTrainEngine.pipeline_stage).length = 2 ∧
    (pyZeroPad 12
        (sampleTrainEngine.total_steps + sampleTrainEngine.step_count)).length = 12 ∧
    step_from_checkpoint
        "exp_Foo__time_2024-01-01_00-00-00__stage_02__steps_000000001000__seed_42.pt" =
      some 1000 ∧
    checkpoint_start_time
        "exp_Foo__time_2024-01-01_00-00-00__stage_02__steps_000000001000__seed_42.pt" =
      some "2024-01-01_00-00-00" :=
  (checkpoint_name_format_spec lcgLib sampleTrainEngine (0 : Int) (by decide)
      (by decide)).2

/-- Whether a save effect is the `torch.save` serialization. -/
def SaveEffect.isTorchSave {M : Type u} {O : Type v} {Sch : Type u} :
    SaveEffect M O Sch → Bool
  | torchSave _ _ => true
  | _ => false

/-- Whether a save effect is a `set_seed` call. -/
def SaveEffect.isSetSeedCall {M : Type u} {O : Type v} {Sch : Type u} :
    SaveEffect M O Sch → Bool
  | setSeedCall _ => true
  | _ => false

/-- Whether a save effect is a `vector_tasks.set_seeds` call. -/
def SaveEffect.isSetSeedsCall {M : Type u} {O : Type v} {Sch : Type u} :
    SaveEffect M O Sch → Bool
  | setSeedsCall _ => true
  | _ => false

/-- A concrete training-mode engine whose seed is `None`. -/
def engineNoSeed : State Nat Nat Nat :=
  { sampleTrainEngine with seed := none }

/-- C8 counterexample: with a `None` trainer seed, `checkpoint_save` still
writes a checkpoint (one `torch.save`), yet performs no reseeding at all —
no `set_seed`, no `set_seeds`, and the trainer seed is unchanged.  This
refutes the claim that every checkpoint-writing call reseeds. -/
theorem checkpoint_save_reseed_counterexample :
    ((checkpoint_save lcgLib engineNoSeed (0 : Int)).effects.countP
        SaveEffect.isTorchSave) = 1 ∧
    ((checkpoint_save lcgLib engineNoSeed (0 : Int)).effects.countP
        SaveEffect.isSetSeedCall) = 0 ∧
    ((checkpoint_save lcgLib engineNoSeed (0 : Int)).effects.countP
        SaveEffect.isSetSeedsCall) = 0 ∧
    (checkpoint_save lcgLib engineNoSeed (0 : Int)).engine.seed = none := by
  decide

/-- C8 (amended): whenever the trainer seed is present and the worker pool
is open, `checkpoint_save` replaces the trainer seed with a freshly drawn
seed, calls `set_seed` with it and sends freshly drawn per-worker seeds via
`set_seeds`, both strictly before serializing the checkpoint dictionary,
which already contains the new seed. -/
theorem checkpoint_save_reseed_amended {M : Type u} {O : Type v} {Sch : Type u}
    {S : Type u} (R : RandomLib S) (e : State M O Sch) (g : S) (s : Int)
    (h1 : e.seed = some s) (h2 : e.vector_tasks_closed = false) :
    (checkpoint_save R e g).engine.seed =
      some ((worker_seeds R 1 none g).1.headI) ∧
    (checkpoint_save R e g).effects =
      [SaveEffect.setSeedCall ((worker_seeds R 1 none g).1.headI),
        SaveEffect.setSeedsCall
          ((worker_seeds R e.num_processes none (worker_seeds R 1 none g).2).1),
        SaveEffect.torchSave (checkpoint_save R e g).path
          (save_dict (checkpoint_save R e g).engine)] ∧
    (checkpoint_save R e g).dict.trainer_seed =
      some ((worker_seeds R 1 none g).1.headI) := by
  have hc : (e.seed.isSome && !e.vector_tasks_closed) = true := by
    rw [h1, h2]; rfl
  refine ⟨?_, ?_, ?_⟩ <;> (unfold checkpoint_save; rw [hc]; simp [save_dict])

/-- Witness for C8's amended claim at a concrete seeded engine. -/
theorem checkpoint_save_reseed_amended_witness :
    (checkpoint_save lcgLib sampleTrainEngine (0 : Int)).engine.seed =
      some ((worker_seeds lcgLib 1 none (0 : Int)).1.headI) ∧
    (checkpoint_save lcgLib sampleTrainEngine (0 : Int)).dict.trainer_seed =
      some ((worker_seeds lcgLib 1 none (0 : Int)).1.headI) :=
  ⟨(checkpoint_save_reseed_amended lcgLib sampleTrainEngine 0 42 rfl rfl).1,
    (checkpoint_save_reseed_amended lcgLib sampleTrainEngine 0 42 rfl rfl).2.2⟩

/-- Every seed drawn by the `randint(0, 2 ** 31 - 1)` comprehension length. -/
theorem drawSeeds_length {S : Type u} (R : RandomLib S) :
    ∀ (n : Nat) (s : S), (drawSeeds R n s).1.length = n := by
  intro n
  induction n with
  | zero => intro s; rfl
  | succ m ih =>
    intro s
    simp [drawSeeds, ih]

/-- Every seed drawn by the `randint(0, 2 ** 31 - 1)` comprehension lies in
the documented range. -/
theorem drawSeeds_mem_range {S : Type u} (R : RandomLib S) :
    ∀ (n : Nat) (s : S) (x : Int), x ∈ (drawSeeds R n s).1 →
      0 ≤ x ∧ x ≤ 2 ^ 31 - 1 := by
  intro n
  induction n with
  | zero => intro s x hx; simp [drawSeeds] at hx
  | succ m ih =>
    intro s x hx
    simp only [drawSeeds, List.mem_cons] at hx
    rcases hx with rfl | hx
    · exact R.randint_mem 0 (2 ^ 31 - 1) s (by norm_num)
    · exact ih _ x hx

/-- C10: for a non-`None` `initial_seed`, `worker_seeds` is a deterministic
function of `(nprocesses, initial_seed)` — the seeds drawn do not depend on
the incoming global random state — it restores the global random state it
found, and it returns exactly `nprocesses` seeds, each in `[0, 2^31 - 1]`. -/
theorem worker_seeds_spec {S : Type u} (R : RandomLib S) (nprocesses : Nat)
    (i : Int) (g g' : S) :
    (worker_seeds R nprocesses (some i) g).1 =
      (worker_seeds R nprocesses (some i) g').1 ∧
    (worker_seeds R nprocesses (some i) g).2 = g ∧
    (worker_seeds R nprocesses (some i) g).1.length = nprocesses ∧
    ∀ x ∈ (worker_seeds R nprocesses (some i) g).1, 0 ≤ x ∧ x ≤ 2 ^ 31 - 1 := by
  refine ⟨rfl, rfl, drawSeeds_length R nprocesses (R.seedFn i), ?_⟩
  intro x hx
  exact drawSeeds_mem_range R nprocesses (R.seedFn i) x hx

/-- Witness for C10 at the concrete generator: state restored and the first
drawn seed in range. -/
theorem worker_seeds_spec_witness :
    (worker_seeds lcgLib 3 (some 5) (0 : Int)).2 = 0 ∧
    (0 ≤ (worker_seeds lcgLib 3 (some 5) (0 : Int)).1.headI ∧
      (worker_seeds lcgLib 3 (some 5) (0 : Int)).1.headI ≤ 2 ^ 31 - 1) :=
  ⟨(worker_seeds_spec lcgLib 3 5 0 1).2.1,
    (worker_seeds_spec lcgLib 3 5 0 1).2.2.2 _ (by decide)⟩

end Engine
